import Mathlib

/-!
Shallow embedding of `desk-changer@eric.gach.gmail.com/profile.js`.

JS values that can be `undefined` are modelled as `Option String` (with
`none` standing for `undefined` / `null`); queue arrays may hold
`undefined` (the sequential refill can push an out-of-range read), so
queue elements are `Option String`.  Machine-level details that the file
never relies on (UTF-16 code units beyond ASCII) are noted where they
are approximated.
-/

/-- `MAX_QUEUE_LENGTH = 100` (profile.js line 30). -/
def MAX_QUEUE_LENGTH : Nat := 100

/-- The numeric value of a decimal digit character, `none` for a
non-digit. -/
def decDigit? (c : Char) : Option Nat :=
  if 48 ≤ c.toNat ∧ c.toNat ≤ 57 then some (c.toNat - 48) else none

/-- Decimal value of a digit list, `none` on any non-digit. -/
def decValAux : List Char → Nat → Option Nat
  | [], acc => some acc
  | c :: cs, acc =>
    match decDigit? c with
    | some d => decValAux cs (10 * acc + d)
    | none => none

/-- The numeric value of a CANONICAL decimal array-index string: all
digits, and no leading zero unless the string is exactly `0` (JS array
index keys are canonical: the key `00` is not an index). -/
def jsCanonicalIndex? (s : String) : Option Nat :=
  match s.data with
  | [] => none
  | c :: cs => if c = '0' ∧ cs ≠ [] then none else decValAux (c :: cs) 0

/-- JS property-key membership for a plain Array: the expression
`key in arr` tests PROPERTY KEYS, not stored values.  The own keys of an
array of length `len` are the canonical decimal index strings below
`len` together with the string `length`.  (Keys inherited from
`Array.prototype`, such as method names like `push`, also satisfy the
test in JS; they are left out of the model because no statement below
evaluates the test at a method name.) -/
def jsArrayKey (s : String) (len : Nat) : Bool :=
  (match jsCanonicalIndex? s with
   | some n => decide (n < len)
   | none => false)
  || s == "length"

/-- JS string coercion of a property key that may be `undefined`:
`undefined in arr` looks up the key under the string "undefined". -/
def jsKeyString : Option String → String
  | some s => s
  | none => "undefined"

/-- JS truthiness of a string-or-missing value: `undefined`, `null` and
the empty string are falsy. -/
def jsTruthy : Option String → Bool
  | none => false
  | some s => !(s == "")

/-- `DeskChangerProfileQueue` (profile.js lines 32-82): backing JS array
`this.queue`. -/
structure Queue where
  queue : List (Option String)
deriving DecidableEq

/-- `get length()` (line 39-41). -/
def Queue.length (q : Queue) : Nat := q.queue.length

/-- `get preview()` (lines 43-45): the tail element
`queue[length - 1]`, or `undefined` when empty.  A stored `undefined`
and the empty sentinel are one and the same JS value, so both collapse
to `none`. -/
def Queue.preview (q : Queue) : Option String :=
  (q.queue.getLast?).join

/-- `clear()` (lines 47-49). -/
def Queue.clear (_ : Queue) : Queue := ⟨[]⟩

/-- `dequeue()` (lines 51-54): `undefined` when empty, otherwise
`queue.pop()` removes and returns the tail element. -/
def Queue.dequeue (q : Queue) : Option String × Queue :=
  match q.queue.getLast? with
  | none => (none, q)
  | some v => (v, ⟨q.queue.dropLast⟩)

/-- The body of the eviction loop in `enqueue` (line 60):
`this.queue.unshift()` -- `Array.prototype.unshift` called with NO
arguments inserts nothing and leaves the array unchanged. -/
def unshiftNoArgs (q : List (Option String)) : List (Option String) := q

/-- The `while (this.queue.length > MAX_QUEUE_LENGTH)` loop of
`enqueue` (lines 59-61), run with explicit fuel; `none` means the fuel
ran out with the guard still true. -/
def evictLoop : Nat → List (Option String) → Option (List (Option String))
  | 0, q => if q.length > MAX_QUEUE_LENGTH then none else some q
  | f + 1, q =>
    if q.length > MAX_QUEUE_LENGTH then evictLoop f (unshiftNoArgs q) else some q

/-- `enqueue(uri)` (lines 56-62): `push` then the eviction loop, with
fuel for the loop. -/
def Queue.enqueueFuel (f : Nat) (q : Queue) (uri : Option String) : Option Queue :=
  (evictLoop f (q.queue ++ [uri])).map Queue.mk

/-- Fuel-free denotation of `enqueue`: since the loop body changes
nothing, the loop terminates exactly when its guard is false on entry
(see `enqueueFuel_eq`). -/
def Queue.enqueue (q : Queue) (uri : Option String) : Option Queue :=
  if (q.queue ++ [uri]).length > MAX_QUEUE_LENGTH then none
  else some ⟨q.queue ++ [uri]⟩

/-- `in_queue(uri)` (lines 64-66): `return (uri in this.queue)` -- the
JS `in` operator applied to an array, i.e. a property-KEY test. -/
def Queue.in_queue (q : Queue) (uri : Option String) : Bool :=
  jsArrayKey (jsKeyString uri) q.queue.length

/-- `remove(uri)` (lines 68-77): `indexOf` then `splice`. -/
def Queue.remove (q : Queue) (uri : Option String) : Bool × Queue :=
  match q.queue.indexOf? uri with
  | some i => (true, ⟨q.queue.eraseIdx i⟩)
  | none => (false, q)

/-- `restore(queue)` (lines 79-81): wholesale replacement of the
backing array, no trimming. -/
def Queue.restore (_ : Queue) (l : List (Option String)) : Queue := ⟨l⟩

/-- Signals emitted through `Signals.addSignalMethods`: `loaded` (no
payload), `preview(uri)` and `changed(uri)`. -/
inductive Event where
  | loaded : Event
  | preview : Option String → Event
  | changed : Option String → Event
deriving DecidableEq

/-- The error objects thrown by `profile.js`.  `DeskChangerProfileError`
carries a message and the profile reference; the model keeps the data
that distinguishes messages (the location count of
`DeskChangerProfileErrorNoWallpaper`, lines 94-101) and records the
profile reference by its name. -/
inductive ProfileError where
  /-- `throw 'profile %s does not exist'` (line 148). -/
  | profileMissing : String → ProfileError
  /-- `DeskChangerProfileErrorNoWallpaper(profile.length, this)`
  (line 159): number of locations attempted and the profile. -/
  | noWallpaper : Nat → String → ProfileError
  /-- `'only one wallpaper is loaded for %s, rotation is disabled'`
  (line 161). -/
  | rotationDisabled : String → ProfileError
  /-- `'No more wallpapers available in history'` (line 191). -/
  | emptyHistory : String → ProfileError
deriving DecidableEq

/-- The slice of `DeskChangerSettings` that `DeskChangerProfileBase`
and `DeskChangerProfileDesktop` read and write. -/
structure Settings where
  random : Bool
  allowed_mime_types : List String
  /-- profile name → ordered list of (uri, recursive) location pairs -/
  profiles : List (String × List (String × Bool))
  /-- profile name → persisted [preview, current] pair -/
  profile_state : List (String × (Option String × Option String))
  remember_profile_state : Bool
deriving DecidableEq

/-- Mutable per-profile state of `DeskChangerProfileBase` (lines
114-131), together with the `picture-uri` property of the
`_background` collaborator.  Directory monitors are opaque handles;
only their count is observable here. -/
structure ProfileState where
  history : Queue
  queue : Queue
  sequence : Nat
  wallpapers : List String
  monitors : Nat
  loaded : Bool
  /-- `this._background.get_string('picture-uri')` /
  `set_string('picture-uri', w)`; `none` once the code stores a JS
  `undefined` there. -/
  background : Option String
deriving DecidableEq

/-- Result of one public operation: the state after it, the signals it
emitted in order, its JS return value, and the error it threw (if any;
a throw aborts the operation at that point, keeping the mutations made
so far). -/
structure OpResult where
  state : ProfileState
  events : List Event
  ret : Option String
  err : Option ProfileError
deriving DecidableEq

/-- `unload()` (lines 201-213): cancel monitors, clear both queues,
reset the cursor, drop the pool, mark unloaded.  The background
property is untouched. -/
def ProfileState.unload (st : ProfileState) : ProfileState :=
  { st with
    history := st.history.clear
    monitors := 0
    queue := st.queue.clear
    sequence := 0
    wallpapers := []
    loaded := false }

/-- The property read `this._history[0]` (line 256): `_history` is a
`DeskChangerProfileQueue` OBJECT, not its backing array, and the object
has no property `0`, so the read is always `undefined`. -/
def jsHistoryZero (_ : Queue) : Option String := none

/-- The rejection-sampling loop of `_fill_queue` in random mode (lines
250-263), driven by the explicit stream `samples` of values of
`Math.floor(Math.random() * this._wallpapers.length)`.  Returns the
accepted candidate, or `none` when the stream is exhausted with every
candidate rejected (the real loop would keep drawing). -/
def fillRandomLoop (st : ProfileState) : List Nat → Option (Option String)
  | [] => none
  | i :: rest =>
    let w : Option String := st.wallpapers[i]?
    if st.background = w then
      fillRandomLoop st rest
    else if st.history.in_queue w &&
        (decide (st.wallpapers.length ≥ MAX_QUEUE_LENGTH) || decide (jsHistoryZero st.history = w)) then
      fillRandomLoop st rest
    else if st.queue.in_queue w &&
        (decide (st.wallpapers.length ≥ MAX_QUEUE_LENGTH) || decide (st.queue.length < st.wallpapers.length)) then
      fillRandomLoop st rest
    else
      some w

/-- `_fill_queue()` (lines 239-275).  Outer `none` is divergence: the
random loop exhausted its sample stream, or the enqueue eviction loop
spun forever.  Otherwise returns the new state and the emitted
signals. -/
def fill_queue (samples : List Nat) (s : Settings) (st : ProfileState) :
    Option (ProfileState × List Event) :=
  if st.queue.length > 0 then
    -- queue already has an item: emit the current preview and return
    some (st, [Event.preview st.queue.preview])
  else
    let pick : Option (Option String × Nat) :=
      if s.random then
        (fillRandomLoop st samples).map (fun w => (w, st.sequence))
      else
        -- wallpaper = this._wallpapers[this._sequence++]
        let w : Option String := st.wallpapers[st.sequence]?
        let seq := st.sequence + 1
        (some (w, if seq > st.wallpapers.length then 0 else seq))
    match pick with
    | none => none
    | some (w, seq) =>
      match st.queue.enqueue w with
      | none => none
      | some q =>
        some ({ st with queue := q, sequence := seq }, [Event.preview q.preview])

/-- The file kinds `_load_uri` distinguishes
(`Gio.FileType.DIRECTORY`, `Gio.FileType.REGULAR`, anything else). -/
inductive FileType where
  | directory : FileType
  | regular : FileType
  | other : FileType
deriving DecidableEq

/-- The filesystem provider's answer for one URI: type, content type
and, for directories, the child URIs produced by
`enumerate_children` + `resolve_relative_path` (in enumeration order);
`children = none` means `enumerate_children` throws. -/
structure FileInfo where
  ftype : FileType
  contentType : String
  children : Option (List String)
deriving DecidableEq

/-- The filesystem collaborator: `none` means
`query_info` throws for that URI (stat failure). -/
def FS : Type := String → Option FileInfo

/-- State threaded through the location scan: the `_wallpapers` array
and the number of registered directory monitors. -/
def LoadSt : Type := List String × Nat

/-- A pending step of the location scan: either one `_load_uri` call
(uri, recursive, top_level) or the remaining iterations of the
`_load_children` enumeration loop (child uris, recursive). -/
inductive LoadTask where
  | uri : String → Bool → Bool → LoadTask
  | children : List String → Bool → LoadTask

/-- `_load_uri(uri, recursive, top_level)` (lines 295-324) together
with the enumeration loop of `_load_children` (lines 277-293), as one
fuel-indexed recursion so that every scan computes by plain structural
reduction.  `fuel` bounds the total number of scan steps (the real
filesystem walk is finite); every scenario below supplies ample fuel.
With fuel 0 the remaining work is dropped. -/
def load_step (fs : FS) (allowed : List String) :
    Nat → LoadTask → LoadSt → LoadSt
  | 0, _, st => st
  | fuel + 1, task, st =>
    match task with
    | LoadTask.uri u recursive top_level =>
      (match fs u with
       | none => st  -- query_info threw: log and return (lines 304-307)
       | some info =>
         if info.ftype = FileType.directory ∧ (recursive ∨ top_level) then
           -- monitor_directory + push (lines 310-312), then _load_children
           (match info.children with
            | none => (st.1, st.2 + 1)  -- enumerate_children threw (lines 282-285)
            | some cs =>
              load_step fs allowed fuel (LoadTask.children cs recursive)
                (st.1, st.2 + 1))
         else if info.ftype = FileType.regular ∧ info.contentType ∈ allowed then
           -- `location.get_uri() in this._wallpapers` (line 315): JS `in`
           -- on an array tests property keys, not stored URIs
           if jsArrayKey u st.1.length then st
           else (st.1 ++ [u], st.2)
         else st)
    | LoadTask.children [] _ => st
    | LoadTask.children (c :: cs) recursive =>
      -- each child runs `_load_uri(child, recursive)` with top_level false
      load_step fs allowed fuel (LoadTask.children cs recursive)
        (load_step fs allowed fuel (LoadTask.uri c recursive false) st)

/-- `_load_uri` entry point. -/
def load_uri (fs : FS) (allowed : List String) (fuel : Nat) (u : String)
    (recursive top_level : Bool) (st : LoadSt) : LoadSt :=
  load_step fs allowed fuel (LoadTask.uri u recursive top_level) st

/-- The `profile.forEach` scan of `load()` (lines 153-156): run
`_load_uri(uri, recursive, true)` over the configured locations,
starting from the state `unload()` left behind. -/
def scanLocations (fs : FS) (allowed : List String) (fuel : Nat)
    (locs : List (String × Bool)) : LoadSt :=
  locs.foldl (fun st l => load_uri fs allowed fuel l.1 l.2 true st) ([], 0)

/-- JS `Array.prototype.sort()` with no comparator on an array of URI
strings compares UTF-16 code-unit sequences; for these strings this is
the lexicographic order on characters used here.  `insertionSort` is
stable, matching modern engines. -/
def sortWallpapers (ws : List String) : List String :=
  List.insertionSort (fun a b => a ≤ b) ws

/-- `load()` of `DeskChangerProfileBase` (lines 141-172).  `fuel`
bounds directory recursion, `samples` drives random refill.  Outer
`none` is divergence inside `_fill_queue`.  A throw produces an
`OpResult` with `err` set and the mutations made before the throw
kept. -/
def load (fs : FS) (fuel : Nat) (samples : List Nat) (s : Settings)
    (profile_name : String) (st : ProfileState) : Option OpResult :=
  -- Ensure we unload first, resetting all our internals (line 145)
  let st0 := st.unload
  match List.lookup profile_name s.profiles with
  | none =>
    some ⟨st0, [], none, some (ProfileError.profileMissing profile_name)⟩
  | some locs =>
    let scanned := scanLocations fs s.allowed_mime_types fuel locs
    let st1 := { st0 with wallpapers := scanned.1, monitors := scanned.2 }
    if scanned.1.length = 0 then
      some ⟨st1, [], none, some (ProfileError.noWallpaper locs.length profile_name)⟩
    else if scanned.1.length = 1 then
      some ⟨st1, [], none, some (ProfileError.rotationDisabled profile_name)⟩
    else
      let st2 := { st1 with wallpapers := sortWallpapers st1.wallpapers }
      match fill_queue samples s st2 with
      | none => none
      | some (st3, evs) =>
        some ⟨{ st3 with loaded := true }, evs ++ [Event.loaded], none, none⟩

/-- `next(_current = true)` (lines 174-185): read the current
wallpaper, pop the lookahead tail, push the current into history when
truthy, apply the popped value (emitting `changed`), refill, return
the popped value.  `none` is divergence (history eviction loop or
random refill). -/
def next (samples : List Nat) (s : Settings) (_current : Bool)
    (st : ProfileState) : Option OpResult :=
  let current : Option String := if _current then st.background else none
  let dq := st.queue.dequeue
  let wallpaper := dq.1
  let st1 := { st with queue := dq.2 }
  match (if jsTruthy current then st1.history.enqueue current
         else some st1.history) with
  | none => none
  | some h =>
    -- _set_wallpaper(wallpaper): set_string + emit 'changed' (340-344)
    let st2 := { st1 with history := h, background := wallpaper }
    match fill_queue samples s st2 with
    | none => none
    | some (st3, evs) =>
      some ⟨st3, Event.changed wallpaper :: evs, wallpaper, none⟩

/-- `prev()` (lines 187-199): throw on empty history (before any
mutation); otherwise pop history's tail, enqueue the current
wallpaper into the lookahead queue, emit `preview`, apply the popped
wallpaper (emitting `changed`), return it.  No refill.  `none` is
divergence of the enqueue eviction loop. -/
def prev (profile_name : String) (st : ProfileState) : Option OpResult :=
  if st.history.length = 0 then
    some ⟨st, [], none, some (ProfileError.emptyHistory profile_name)⟩
  else
    let dq := st.history.dequeue
    let wallpaper := dq.1
    match st.queue.enqueue st.background with
    | none => none
    | some q =>
      let st1 := { st with history := dq.2, queue := q, background := wallpaper }
      some ⟨st1, [Event.preview q.preview, Event.changed wallpaper], wallpaper, none⟩

/-- Overwriting assignment `obj[key] = v` on the persisted-state
mapping object. -/
def mapSet {α : Type} (m : List (String × α)) (k : String) (v : α) :
    List (String × α) :=
  if m.any (fun p => p.1 == k) then
    m.map (fun p => if p.1 == k then (k, v) else p)
  else m ++ [(k, v)]

/-- `delete obj[key]` on the persisted-state mapping object. -/
def mapDelete {α : Type} (m : List (String × α)) (k : String) :
    List (String × α) :=
  m.filter (fun p => p.1 != k)

/-- `DeskChangerProfileDesktop.save_state()` (lines 369-381): no-op
when the lookahead queue is empty; otherwise store
`[this._queue.preview, this._background.get_string('picture-uri')]`
under the profile name, overwriting any prior entry. -/
def save_state (profile_name : String) (st : ProfileState) (s : Settings) :
    Settings :=
  if st.queue.length = 0 then s
  else
    { s with profile_state :=
        mapSet s.profile_state profile_name (st.queue.preview, st.background) }

/-- `DeskChangerProfileDesktop.restore_state()` (lines 359-367): when
an entry exists for this profile name, replace the lookahead queue's
backing array with the persisted pair and delete the entry. -/
def restore_state (profile_name : String) (st : ProfileState) (s : Settings) :
    ProfileState × Settings :=
  match List.lookup profile_name s.profile_state with
  | some pair =>
    ({ st with queue := st.queue.restore [pair.1, pair.2] },
     { s with profile_state := mapDelete s.profile_state profile_name })
  | none => (st, s)

/-! Concrete scenarios used to exercise the model.  URIs are ordinary
`file://` strings, so they are neither canonical array-index strings
nor the key `length`. -/

/-- The scenario of spec section 8: a directory `file:///d` holding
`x.jpg` (allowed content type) and `y.txt` (disallowed). -/
def fsScenarioD : FS := fun u =>
  if u = "file:///d" then
    some ⟨FileType.directory, "inode/directory",
          some ["file:///d/x.jpg", "file:///d/y.txt"]⟩
  else if u = "file:///d/x.jpg" then
    some ⟨FileType.regular, "image/jpeg", none⟩
  else if u = "file:///d/y.txt" then
    some ⟨FileType.regular, "text/plain", none⟩
  else none

/-- Settings whose profile `p1` is the single recursive location
`file:///d`. -/
def settingsScenarioD : Settings :=
  ⟨false, ["image/jpeg"], [("p1", [("file:///d", true)])], [], false⟩

/-- A freshly constructed profile state (`_init`, lines 114-131), with
some current background. -/
def profileStateInit : ProfileState :=
  ⟨⟨[]⟩, ⟨[]⟩, 0, [], 0, false, some "file:///current"⟩

/-- A filesystem with a single allowed image. -/
def fsSolo : FS := fun u =>
  if u = "file:///solo.jpg" then some ⟨FileType.regular, "image/jpeg", none⟩
  else none

/-- Settings whose profile `solo` points at the single image. -/
def settingsSolo : Settings :=
  ⟨false, ["image/jpeg"], [("solo", [("file:///solo.jpg", false)])], [], false⟩

/-- A filesystem where one allowed image is reachable; listing its URI
twice as two locations reaches the same file through two requests. -/
def fsDup : FS := fun u =>
  if u = "file:///d/x.jpg" then some ⟨FileType.regular, "image/jpeg", none⟩
  else none

/-- The three-element pool of the sequential-mode scenario. -/
def seqPool : List String := ["file:///a", "file:///b", "file:///c"]

/-- Settings in sequential mode (`random = false`). -/
def seqSettings : Settings := ⟨false, ["image/jpeg"], [], [], false⟩

/-- Loaded sequential-mode state over `seqPool` with cursor `n` and an
empty lookahead queue. -/
def seqStateAt (n : Nat) : ProfileState :=
  ⟨⟨[]⟩, ⟨[]⟩, n, seqPool, 0, true, some "file:///current"⟩

/-- Random-mode scenario state: pool `[a, b]`, current wallpaper `a`,
empty queues. -/
def randState2 : ProfileState :=
  ⟨⟨[]⟩, ⟨[]⟩, 0, ["file:///a", "file:///b"], 0, true, some "file:///a"⟩

/-- A loaded state with two history entries, one queued entry and a
current background, for exercising `prev`. -/
def histState : ProfileState :=
  ⟨⟨[some "file:///h1", some "file:///h2"]⟩, ⟨[some "file:///q1"]⟩, 0, [],
   0, true, some "file:///cur"⟩

/-- A state with a two-element lookahead queue, for exercising state
persistence. -/
def persistState : ProfileState :=
  ⟨⟨[]⟩, ⟨[some "file:///p1", some "file:///p2"]⟩, 0, [], 0, true,
   some "file:///cur"⟩

/-- Settings holding an unrelated persisted entry, for exercising state
persistence. -/
def persistSettings : Settings :=
  ⟨false, [], [], [("other", (some "file:///x", some "file:///y"))], true⟩

/-- Settings whose profile `p2` has one location that fails to stat
(it is absent from the filesystem scenarios). -/
def settingsMissingLoc : Settings :=
  ⟨false, ["image/jpeg"], [("p2", [("file:///missing", true)])], [], false⟩

/-! Helper lemmas shared by the claim theorems. -/

theorem evictLoop_eq (f : Nat) (q : List (Option String)) :
    evictLoop f q = if q.length > MAX_QUEUE_LENGTH then none else some q := by
  induction f with
  | zero => rfl
  | succ f ih =>
    by_cases h : q.length > MAX_QUEUE_LENGTH
    · simp [evictLoop, unshiftNoArgs, h, ih]
    · simp [evictLoop, h]

theorem enqueueFuel_eq (f : Nat) (q : Queue) (uri : Option String) :
    Queue.enqueueFuel f q uri = Queue.enqueue q uri := by
  unfold Queue.enqueueFuel Queue.enqueue
  rw [evictLoop_eq]
  split <;> rfl

theorem jsArrayKey_zero (s : String) : jsArrayKey s 0 = (s == "length") := by
  unfold jsArrayKey
  cases hc : jsCanonicalIndex? s <;> simp [hc]

theorem lookup_map_overwrite {α : Type} (k : String) (v : α) :
    ∀ t : List (String × α), (t.any fun p => p.1 == k) = true →
      List.lookup k (t.map (fun p => if p.1 == k then (k, v) else p)) = some v := by
  intro t
  induction t with
  | nil => intro h; simp at h
  | cons p t ih =>
    obtain ⟨pk, pv⟩ := p
    intro h
    simp only [List.map_cons]
    by_cases hp : (pk == k) = true
    · rw [if_pos hp]
      rw [List.lookup_cons]
      simp
    · rw [if_neg hp]
      have ht : (t.any fun q => q.1 == k) = true := by
        simp only [List.any_cons, hp, Bool.false_or] at h
        exact h
      have hk : (k == pk) = false := by
        have hne : pk ≠ k := by simpa using hp
        simp only [beq_eq_false_iff_ne, ne_eq]
        exact fun he => hne he.symm
      rw [List.lookup_cons, hk]
      exact ih ht

theorem lookup_append_new {α : Type} (k : String) (v : α) :
    ∀ t : List (String × α), ¬ ((t.any fun p => p.1 == k) = true) →
      List.lookup k (t ++ [(k, v)]) = some v := by
  intro t
  induction t with
  | nil => intro _; simp [List.lookup]
  | cons p t ih =>
    obtain ⟨pk, pv⟩ := p
    intro h
    simp only [List.any_cons, Bool.or_eq_true, not_or] at h
    have hk : (k == pk) = false := by
      have hne : pk ≠ k := by simpa using h.1
      simp only [beq_eq_false_iff_ne, ne_eq]
      exact fun he => hne he.symm
    rw [List.cons_append, List.lookup_cons, hk]
    exact ih h.2

theorem lookup_mapSet {α : Type} (m : List (String × α)) (k : String) (v : α) :
    List.lookup k (mapSet m k v) = some v := by
  unfold mapSet
  by_cases h : (m.any fun p => p.1 == k) = true
  · rw [if_pos h]
    exact lookup_map_overwrite k v m h
  · rw [if_neg h]
    exact lookup_append_new k v m h

theorem lookup_mapDelete {α : Type} (m : List (String × α)) (k : String) :
    List.lookup k (mapDelete m k) = none := by
  unfold mapDelete
  induction m with
  | nil => rfl
  | cons p t ih =>
    obtain ⟨pk, pv⟩ := p
    by_cases hp : pk = k
    · simp [List.filter, hp, ih]
    · have h1 : (pk != k) = true := by simp [bne_iff_ne, hp]
      have h2 : (k == pk) = false := by
        simp only [beq_eq_false_iff_ne, ne_eq]
        exact fun he => hp he.symm
      simp only [List.filter, h1]
      rw [List.lookup_cons, h2]
      exact ih

/-! Claim theorems. -/

/-- C1: the claim says every `enqueue` terminates and evicts from the
front once the length would exceed 100.  On the code, the eviction
loop's body is `this.queue.unshift()` with no arguments, which removes
nothing, so the 101st `enqueue` leaves the length at 101 and the
`while` guard never turns false: for every amount of fuel the loop is
still running.  The bounded-eviction claim is the clear intent of the
loop; the code's `unshift` (instead of `shift`) is the slip. -/
theorem c1_enqueue_101st_never_terminates :
    (⟨List.replicate 100 (some "file:///w")⟩ : Queue).length = 100 ∧
    ∀ fuel : Nat,
      Queue.enqueueFuel fuel ⟨List.replicate 100 (some "file:///w")⟩
        (some "file:///z") = none := by
  refine ⟨by simp [Queue.length], fun fuel => ?_⟩
  rw [enqueueFuel_eq]
  unfold Queue.enqueue
  simp [MAX_QUEUE_LENGTH]

/-- C3: the claim says sequential refills cycle `a, b, c, a, …` and
never dereference an out-of-range index.  On the code the cursor is
reset only when it EXCEEDS the pool length (`>` instead of `>=`), so
after three refills the cursor is 3 and the fourth refill reads
`wallpapers[3]` (`undefined`) and enqueues it; only then does the
cursor wrap to 0.  The first three conjuncts confirm the intended
`a, b, c` prefix, the fourth exhibits the out-of-range refill. -/
theorem c3_fourth_refill_enqueues_undefined :
    fill_queue [] seqSettings (seqStateAt 0) =
      some (⟨⟨[]⟩, ⟨[some "file:///a"]⟩, 1, seqPool, 0, true, some "file:///current"⟩,
            [Event.preview (some "file:///a")]) ∧
    fill_queue [] seqSettings (seqStateAt 1) =
      some (⟨⟨[]⟩, ⟨[some "file:///b"]⟩, 2, seqPool, 0, true, some "file:///current"⟩,
            [Event.preview (some "file:///b")]) ∧
    fill_queue [] seqSettings (seqStateAt 2) =
      some (⟨⟨[]⟩, ⟨[some "file:///c"]⟩, 3, seqPool, 0, true, some "file:///current"⟩,
            [Event.preview (some "file:///c")]) ∧
    fill_queue [] seqSettings (seqStateAt 3) =
      some (⟨⟨[]⟩, ⟨[none]⟩, 0, seqPool, 0, true, some "file:///current"⟩,
            [Event.preview none]) := by
  exact ⟨rfl, rfl, rfl, rfl⟩

/-- C4: the claim says a URI is added to the pool only if not already
present, yielding a deduplicated pool.  On the code the presence test
is `location.get_uri() in this._wallpapers`, and the JS `in` operator
on an array tests property keys, never stored URI values, so the same
file reached through two configured locations is pushed twice and the
pool holds a duplicate.  The dedup intent is explicit in the code's
own `ignoring duplicate file` branch, which is unreachable for real
URIs. -/
theorem c4_dedup_check_misses_duplicate :
    (scanLocations fsDup ["image/jpeg"] 5
        [("file:///d/x.jpg", false), ("file:///d/x.jpg", false)]).1 =
      ["file:///d/x.jpg", "file:///d/x.jpg"] := by
  rfl

/-- C9: the claim says `in_queue(uri)` returns true exactly when `uri`
is one of the stored elements.  On the code it evaluates
`uri in this.queue`, a JS property-KEY test: it is false for a stored
URI value and true for the index string `0` that is stored nowhere. -/
theorem c9_in_queue_is_key_test_not_membership :
    Queue.in_queue ⟨[some "file:///a"]⟩ (some "file:///a") = false ∧
    (some "file:///a") ∈ (⟨[some "file:///a"]⟩ : Queue).queue ∧
    Queue.in_queue ⟨[some "file:///a"]⟩ (some "0") = true ∧
    (some "0") ∉ (⟨[some "file:///a"]⟩ : Queue).queue := by
  decide

/-- C2 counterexample: on the spec's own scenario (directory with one
allowed `x.jpg` and one disallowed `y.txt`), `load()` throws the
rotation-disabled error and stops right there: the result records
`loaded = false`, an empty lookahead queue and NO emitted events,
contradicting the claim that loading proceeds to queue-fill, sets
`loaded = true` and emits `loaded`.  (The JS `throw` at line 161
aborts `load()`; nothing after it runs.) -/
theorem c2_counterexample :
    load fsScenarioD 5 [] settingsScenarioD "p1" profileStateInit =
      some ⟨⟨⟨[]⟩, ⟨[]⟩, 0, ["file:///d/x.jpg"], 1, false, some "file:///current"⟩,
            [], none, some (ProfileError.rotationDisabled "p1")⟩ ∧
    (⟨⟨[]⟩, ⟨[]⟩, 0, ["file:///d/x.jpg"], 1, false,
      some "file:///current"⟩ : ProfileState).loaded = false := by
  exact ⟨rfl, rfl⟩

/-- C6 counterexample: a load over one readable allowed image fails
(with the rotation-disabled throw) even though the aggregate pool is
non-empty, so "the load fails only in this empty-pool case" is false
as stated. -/
theorem c6_counterexample :
    load fsSolo 5 [] settingsSolo "solo" profileStateInit =
      some ⟨⟨⟨[]⟩, ⟨[]⟩, 0, ["file:///solo.jpg"], 0, false, some "file:///current"⟩,
            [], none, some (ProfileError.rotationDisabled "solo")⟩ ∧
    ["file:///solo.jpg"] ≠ ([] : List String) := by
  exact ⟨rfl, by decide⟩

/-- C2 amended: when the scan of the configured locations yields
exactly one wallpaper, `load()` throws the rotation-disabled condition
and aborts right there: the pool keeps the single scanned entry
(unsorted), the lookahead queue stays empty, `loaded` stays false and
no event is emitted. -/
theorem c2_amended (fs : FS) (fuel : Nat) (samples : List Nat) (s : Settings)
    (nm : String) (st : ProfileState) (locs : List (String × Bool))
    (hlocs : List.lookup nm s.profiles = some locs)
    (hone : (scanLocations fs s.allowed_mime_types fuel locs).1.length = 1) :
    load fs fuel samples s nm st =
      some ⟨⟨⟨[]⟩, ⟨[]⟩, 0, (scanLocations fs s.allowed_mime_types fuel locs).1,
             (scanLocations fs s.allowed_mime_types fuel locs).2, false, st.background⟩,
            [], none, some (ProfileError.rotationDisabled nm)⟩ := by
  have h0 : ¬ ((scanLocations fs s.allowed_mime_types fuel locs).1.length = 0) := by
    omega
  unfold load
  rw [hlocs]
  simp only [ProfileState.unload, Queue.clear, h0, hone, if_false, if_true]
  rfl

/-- Witness for `c2_amended` at the spec-section-8 scenario. -/
theorem c2_amended_witness :
    load fsScenarioD 5 [] settingsScenarioD "p1" profileStateInit =
      some ⟨⟨⟨[]⟩, ⟨[]⟩, 0,
             (scanLocations fsScenarioD settingsScenarioD.allowed_mime_types 5
               [("file:///d", true)]).1,
             (scanLocations fsScenarioD settingsScenarioD.allowed_mime_types 5
               [("file:///d", true)]).2,
             false, profileStateInit.background⟩,
            [], none, some (ProfileError.rotationDisabled "p1")⟩ :=
  c2_amended fsScenarioD 5 [] settingsScenarioD "p1" profileStateInit
    [("file:///d", true)] rfl rfl

/-- C6 amended: a profile whose configured locations yield zero
wallpapers fails with the no-wallpapers condition carrying the number
of locations attempted and the profile, and `loaded` stays false
(first part); a location whose stat fails is skipped without touching
the scan state, so per-location filesystem errors never abort the load
(second part).  The empty pool is however NOT the only failing case:
see the one-wallpaper counterexample. -/
theorem c6_amended :
    (∀ (fs : FS) (fuel : Nat) (samples : List Nat) (s : Settings) (nm : String)
        (st : ProfileState) (locs : List (String × Bool)),
      List.lookup nm s.profiles = some locs →
      (scanLocations fs s.allowed_mime_types fuel locs).1 = [] →
      load fs fuel samples s nm st =
        some ⟨⟨⟨[]⟩, ⟨[]⟩, 0, (scanLocations fs s.allowed_mime_types fuel locs).1,
               (scanLocations fs s.allowed_mime_types fuel locs).2, false, st.background⟩,
              [], none, some (ProfileError.noWallpaper locs.length nm)⟩) ∧
    (∀ (fs : FS) (allowed : List String) (fuel : Nat) (u : String)
        (recursive top_level : Bool) (st : LoadSt),
      fs u = none → load_uri fs allowed fuel u recursive top_level st = st) := by
  constructor
  · intro fs fuel samples s nm st locs hlocs hempty
    unfold load
    rw [hlocs]
    simp only [ProfileState.unload, Queue.clear, hempty, List.length_nil, if_true]
  · intro fs allowed fuel u recursive top_level st h
    cases fuel with
    | zero => rfl
    | succ f =>
      unfold load_uri load_step
      simp only [h]

/-- Witness for `c6_amended`: a profile with one unreadable location
loads nothing and fails with the no-wallpapers condition; the failing
stat leaves the scan state untouched. -/
theorem c6_amended_witness :
    load fsSolo 5 [] settingsMissingLoc "p2" profileStateInit =
      some ⟨⟨⟨[]⟩, ⟨[]⟩, 0,
             (scanLocations fsSolo settingsMissingLoc.allowed_mime_types 5
               [("file:///missing", true)]).1,
             (scanLocations fsSolo settingsMissingLoc.allowed_mime_types 5
               [("file:///missing", true)]).2,
             false, profileStateInit.background⟩,
            [], none, some (ProfileError.noWallpaper 1 "p2")⟩ ∧
    load_uri fsSolo ["image/jpeg"] 5 "file:///missing" true true ([], 0) = ([], 0) :=
  ⟨c6_amended.1 fsSolo 5 [] settingsMissingLoc "p2" profileStateInit
     [("file:///missing", true)] rfl rfl,
   c6_amended.2 fsSolo ["image/jpeg"] 5 "file:///missing" true true ([], 0) rfl⟩

/-- C5: in random mode with pool exactly `[a, b]` and current
wallpaper `a`, the rejection-sampling refill of an empty lookahead
queue can only ever accept `b`, and it terminates (returning `b`) as
soon as the random stream draws index 1.  Randomness is modelled by
the explicit stream of drawn indices (each below the pool length 2, as
`Math.floor(Math.random() * 2)` always is); the hypotheses on `b`
record that a wallpaper URI is neither a stored-history array key nor
the key `length`. -/
theorem c5_random_pool2_selects_only_b
    (st : ProfileState) (a b : String) (samples : List Nat)
    (hw : st.wallpapers = [a, b])
    (hbg : st.background = some a)
    (hq : st.queue.queue = [])
    (hab : a ≠ b)
    (hbh : st.history.in_queue (some b) = false)
    (hbl : b ≠ "length")
    (hs : ∀ i ∈ samples, i < 2) :
    (∀ w, fillRandomLoop st samples = some w → w = some b) ∧
    (1 ∈ samples → fillRandomLoop st samples = some (some b)) := by
  induction samples with
  | nil =>
    refine ⟨fun w hfw => ?_, fun h1 => absurd h1 (List.not_mem_nil 1)⟩
    simp [fillRandomLoop] at hfw
  | cons i rest ih =>
    have hi : i < 2 := hs i (List.mem_cons_self i rest)
    have hrest : ∀ j ∈ rest, j < 2 := fun j hj => hs j (List.mem_cons_of_mem i hj)
    interval_cases i
    · -- drew index 0: the candidate is `a`, the current wallpaper; retry
      have hstep : fillRandomLoop st (0 :: rest) = fillRandomLoop st rest := by
        conv_lhs => unfold fillRandomLoop
        simp [hw, hbg]
      refine ⟨fun w hfw => (ih hrest).1 w (hstep ▸ hfw), fun h1 => ?_⟩
      have h1r : 1 ∈ rest := by
        rcases List.mem_cons.mp h1 with h | h
        · omega
        · exact h
      rw [hstep]
      exact (ih hrest).2 h1r
    · -- drew index 1: the candidate is `b` and every rejection test fails
      have h1v : st.wallpapers[1]? = some b := by rw [hw]; rfl
      have hc1 : ¬ (st.background = some b) := by
        rw [hbg]
        simp [hab]
      have hc3 : st.queue.in_queue (some b) = false := by
        show jsArrayKey (jsKeyString (some b)) st.queue.queue.length = false
        rw [hq]
        show jsArrayKey b 0 = false
        rw [jsArrayKey_zero]
        exact beq_eq_false_iff_ne.mpr hbl
      have hstep : fillRandomLoop st (1 :: rest) = some (some b) := by
        conv_lhs => unfold fillRandomLoop
        simp [h1v, hc1, hbh, hc3]
      exact ⟨fun w hfw => by rw [hstep] at hfw; exact (Option.some.inj hfw).symm,
             fun _ => hstep⟩

/-- Witness for `c5_random_pool2_selects_only_b` on the concrete pool
and a stream that draws index 0 and then index 1. -/
theorem c5_witness :
    (∀ w, fillRandomLoop randState2 [0, 1] = some w → w = some "file:///b") ∧
    (1 ∈ [0, 1] → fillRandomLoop randState2 [0, 1] = some (some "file:///b")) :=
  c5_random_pool2_selects_only_b randState2 "file:///a" "file:///b" [0, 1]
    rfl rfl rfl (by decide) rfl (by decide) (by decide)

/-- C7: `prev()` on an empty history throws the empty-history
condition before any mutation, so the returned state is the input
state unchanged; on a non-empty history (with the lookahead queue
below capacity so the push-back terminates) it pops history's tail,
appends the currently applied wallpaper to the lookahead queue (one
single appended element -- no refill happens), emits `preview` then
`changed`, applies the popped wallpaper and returns it. -/
theorem c7_prev_empty_throws_nonempty_rewinds (nm : String) (st : ProfileState) :
    (st.history.length = 0 →
      prev nm st = some ⟨st, [], none, some (ProfileError.emptyHistory nm)⟩) ∧
    (∀ w h, st.history.dequeue = (w, h) → st.history.length ≠ 0 →
      st.queue.length < MAX_QUEUE_LENGTH →
      prev nm st =
        some ⟨⟨h, ⟨st.queue.queue ++ [st.background]⟩, st.sequence, st.wallpapers,
               st.monitors, st.loaded, w⟩,
              [Event.preview st.background, Event.changed w], w, none⟩) := by
  constructor
  · intro h0
    unfold prev
    rw [if_pos h0]
  · intro w h hdq hne hlt
    have henq : st.queue.enqueue st.background =
        some ⟨st.queue.queue ++ [st.background]⟩ := by
      unfold Queue.enqueue
      rw [if_neg]
      unfold Queue.length at hlt
      simp only [List.length_append, List.length_cons, List.length_nil]
      omega
    have hprev : (⟨st.queue.queue ++ [st.background]⟩ : Queue).preview =
        st.background := by
      unfold Queue.preview
      rw [List.getLast?_concat]
      rfl
    unfold prev
    rw [if_neg hne]
    simp only [hdq, henq, hprev]

/-- Witness for `c7_prev_empty_throws_nonempty_rewinds`: the empty
branch on a freshly refillable state, the rewind branch on a state
with two history entries. -/
theorem c7_witness :
    prev "p" (seqStateAt 0) =
      some ⟨seqStateAt 0, [], none, some (ProfileError.emptyHistory "p")⟩ ∧
    prev "p" histState =
      some ⟨⟨⟨[some "file:///h1"]⟩, ⟨[some "file:///q1", some "file:///cur"]⟩, 0,
             [], 0, true, some "file:///h2"⟩,
            [Event.preview (some "file:///cur"), Event.changed (some "file:///h2")],
            some "file:///h2", none⟩ :=
  ⟨(c7_prev_empty_throws_nonempty_rewinds "p" (seqStateAt 0)).1 rfl,
   (c7_prev_empty_throws_nonempty_rewinds "p" histState).2
     (some "file:///h2") ⟨[some "file:///h1"]⟩ rfl (by decide) (by decide)⟩

/-- C8: with a non-empty lookahead queue, `save_state` followed by
`restore_state` with no intervening writes leaves the lookahead queue
holding exactly the saved pair `[preview, current wallpaper]` and
removes the persisted-state entry for the profile name, so a second
`restore_state` is a no-op. -/
theorem c8_save_then_restore_roundtrip (nm : String) (st : ProfileState)
    (s : Settings) (hne : ¬ (st.queue.length = 0)) :
    (restore_state nm st (save_state nm st s)).1.queue.queue =
      [st.queue.preview, st.background] ∧
    List.lookup nm (restore_state nm st (save_state nm st s)).2.profile_state =
      none ∧
    restore_state nm (restore_state nm st (save_state nm st s)).1
        (restore_state nm st (save_state nm st s)).2 =
      ((restore_state nm st (save_state nm st s)).1,
       (restore_state nm st (save_state nm st s)).2) := by
  have hs1 : save_state nm st s =
      { s with profile_state :=
          mapSet s.profile_state nm (st.queue.preview, st.background) } := by
    unfold save_state
    exact if_neg hne
  have hr : restore_state nm st (save_state nm st s) =
      ({ st with queue := ⟨[st.queue.preview, st.background]⟩ },
       { s with profile_state :=
           mapDelete (mapSet s.profile_state nm (st.queue.preview, st.background)) nm }) := by
    rw [hs1]
    unfold restore_state
    simp only [lookup_mapSet]
    rfl
  refine ⟨by rw [hr], ?_, ?_⟩
  · rw [hr]
    exact lookup_mapDelete _ _
  · rw [hr]
    unfold restore_state
    simp only [lookup_mapDelete]

/-- Witness for `c8_save_then_restore_roundtrip` on a concrete queue
holding two entries and a settings object with one unrelated persisted
entry. -/
theorem c8_witness :
    (restore_state "me" persistState
        (save_state "me" persistState persistSettings)).1.queue.queue =
      [some "file:///p2", some "file:///cur"] ∧
    List.lookup "me" (restore_state "me" persistState
        (save_state "me" persistState persistSettings)).2.profile_state = none ∧
    restore_state "me"
        (restore_state "me" persistState
          (save_state "me" persistState persistSettings)).1
        (restore_state "me" persistState
          (save_state "me" persistState persistSettings)).2 =
      ((restore_state "me" persistState
          (save_state "me" persistState persistSettings)).1,
       (restore_state "me" persistState
          (save_state "me" persistState persistSettings)).2) :=
  c8_save_then_restore_roundtrip "me" persistState persistSettings (by decide)

/-- C10: calling `next()` with an empty lookahead queue raises no
condition: `dequeue` yields the empty sentinel (`undefined`), `next`
stores that sentinel into the background setter, emits `changed` with
it as the first signal, and returns it.  (Sequential mode, and a
history below capacity so the history push terminates.) -/
theorem c10_next_on_empty_queue
    (samples : List Nat) (s : Settings) (st : ProfileState)
    (hq : st.queue = ⟨[]⟩)
    (hrand : s.random = false)
    (hh : st.history.length < MAX_QUEUE_LENGTH) :
    ∃ r, next samples s true st = some r ∧
      r.ret = none ∧ r.err = none ∧ r.state.background = none ∧
      r.events.head? = some (Event.changed none) := by
  have hdq : (⟨[]⟩ : Queue).dequeue = (none, ⟨[]⟩) := rfl
  have hfill : ∀ st2 : ProfileState, st2.queue = ⟨[]⟩ →
      fill_queue samples s st2 =
        some ({ st2 with
                queue := ⟨[st2.wallpapers[st2.sequence]?]⟩,
                sequence := if st2.sequence + 1 > st2.wallpapers.length then 0
                            else st2.sequence + 1 },
              [Event.preview ((⟨[st2.wallpapers[st2.sequence]?]⟩ : Queue).preview)]) := by
    intro st2 h2
    unfold fill_queue
    rw [h2, hrand]
    simp [Queue.length, Queue.enqueue, MAX_QUEUE_LENGTH]
  have henq : st.history.enqueue st.background =
      some ⟨st.history.queue ++ [st.background]⟩ := by
    unfold Queue.enqueue
    rw [if_neg]
    unfold Queue.length MAX_QUEUE_LENGTH at hh
    simp only [List.length_append, List.length_cons, List.length_nil,
      MAX_QUEUE_LENGTH]
    omega
  by_cases ht : jsTruthy st.background = true
  · refine ⟨⟨⟨⟨st.history.queue ++ [st.background]⟩, ⟨[st.wallpapers[st.sequence]?]⟩,
              (if st.sequence + 1 > st.wallpapers.length then 0 else st.sequence + 1),
              st.wallpapers, st.monitors, st.loaded, none⟩,
             [Event.changed none,
              Event.preview ((⟨[st.wallpapers[st.sequence]?]⟩ : Queue).preview)],
             none, none⟩, ?_, rfl, rfl, rfl, rfl⟩
    unfold next
    rw [hq]
    simp only [hdq, if_true, ht, henq]
    rw [hfill ⟨⟨st.history.queue ++ [st.background]⟩, ⟨[]⟩, st.sequence, st.wallpapers,
               st.monitors, st.loaded, none⟩ rfl]
  · refine ⟨⟨⟨st.history, ⟨[st.wallpapers[st.sequence]?]⟩,
              (if st.sequence + 1 > st.wallpapers.length then 0 else st.sequence + 1),
              st.wallpapers, st.monitors, st.loaded, none⟩,
             [Event.changed none,
              Event.preview ((⟨[st.wallpapers[st.sequence]?]⟩ : Queue).preview)],
             none, none⟩, ?_, rfl, rfl, rfl, rfl⟩
    rw [Bool.not_eq_true] at ht
    unfold next
    rw [hq]
    simp only [hdq, if_true, ht, Bool.false_eq_true, if_false]
    rw [hfill ⟨st.history, ⟨[]⟩, st.sequence, st.wallpapers, st.monitors, st.loaded,
               none⟩ rfl]

/-- Witness for `c10_next_on_empty_queue` on a loaded sequential state
whose lookahead queue is empty. -/
theorem c10_witness :
    ∃ r, next [] seqSettings true (seqStateAt 0) = some r ∧
      r.ret = none ∧ r.err = none ∧ r.state.background = none ∧
      r.events.head? = some (Event.changed none) :=
  c10_next_on_empty_queue [] seqSettings (seqStateAt 0) rfl rfl (by decide)
